import Mathlib

/-!
Verification of the SOAP callback server (src/callback-server.js).

The development shallowly embeds the dynamically-typed JavaScript values the
server manipulates as the inductive type `JSValue`, and translates the core
request pipeline — `parseXML`, `extractFirmwareStatus`, `logCallback`, and the
`app.post` handler — into executable Lean functions over that type.  Fallible
JavaScript code (property access that can raise `TypeError`) is modelled with
`Except`; the outer `try/catch` of the handler is modelled by matching on the
`Except` result and producing the 500 response.
-/

/-- A JavaScript value as produced by the xml2js parser with
`explicitArray: false`: `null` (which also stands for `undefined`), strings,
arrays, and objects with insertion-ordered string keys. -/
inductive JSValue where
  | null : JSValue
  | str : String → JSValue
  | arr : List JSValue → JSValue
  | obj : List (String × JSValue) → JSValue

/-- JavaScript truthiness for the values above: `null`/`undefined` and the
empty string are falsy; every object and array (even empty) is truthy. -/
def truthy : JSValue → Bool
  | .null => false
  | .str s => !(s == "")
  | .arr _ => true
  | .obj _ => true

/-- Whether a value is `null`/`undefined` (property access on it raises). -/
def isNull : JSValue → Bool
  | .null => true
  | _ => false

/-- First-match lookup in an object's ordered field list; a missing key is
JavaScript `undefined`, modelled as `.null`. -/
def lookupField : List (String × JSValue) → String → JSValue
  | [], _ => .null
  | (k, v) :: rest, n => if k = n then v else lookupField rest n

/-- Non-throwing property access `v[k]`: on objects it looks the key up, on
every other value it yields `undefined` (`.null`).  This is the behaviour of
`v?.k`, and also of plain `v.k` whenever `v` is not `null`/`undefined`. -/
def jsGet (v : JSValue) (k : String) : JSValue :=
  match v with
  | .obj fields => lookupField fields k
  | _ => .null

/-- The JavaScript `a || b` operator: `a` if truthy, else `b`. -/
def jsOr (a b : JSValue) : JSValue := if truthy a then a else b

mutual
/-- JavaScript string coercion `String(v)` restricted to the values the server
stores as object keys.  The `.null` case is only reached as an array element,
where `Array.prototype.join` renders `null`/`undefined` as the empty string. -/
def jsToString : JSValue → String
  | .null => ""
  | .str s => s
  | .obj _ => "[object Object]"
  | .arr xs => jsListToString xs

/-- Comma-join of the element coercions, as `Array.prototype.toString` does. -/
def jsListToString : List JSValue → String
  | [] => ""
  | [x] => jsToString x
  | x :: y :: rest => jsToString x ++ "," ++ jsListToString (y :: rest)
end

/-- JavaScript object assignment `m[k] = v`: an existing key is updated in
place (keeping its position), a new key is appended at the end. -/
def objInsert : List (String × JSValue) → String → JSValue → List (String × JSValue)
  | [], k, v => [(k, v)]
  | (k', v') :: rest, k, v =>
    if k' = k then (k', v) :: rest else (k', v') :: objInsert rest k v

/-- Option-valued first-match key lookup, distinguishing an absent key from a
key bound to `.null`. -/
def findKey : List (String × JSValue) → String → Option JSValue
  | [], _ => none
  | (k', v) :: rest, k => if k' = k then some v else findKey rest k

/-- The keys of an object's field list, in order. -/
def keysOf (m : List (String × JSValue)) : List String := m.map Prod.fst

/-- First-biased choice on options. -/
def orO (a b : Option JSValue) : Option JSValue :=
  match a with
  | some v => some v
  | none => b

/-- Coercion of a possibly-scalar value to an array, as in
`if (!Array.isArray(x)) x = [x]` (src lines 47-49 and 119-121). -/
def jsToArray (v : JSValue) : List JSValue :=
  match v with
  | .arr xs => xs
  | _ => [v]

/-- Resolution of an attribute entry's name, `attr.name || attr.Name ||
attr.NAME` (src line 52). -/
def resolveAttrName (attr : JSValue) : JSValue :=
  jsOr (jsGet attr "name") (jsOr (jsGet attr "Name") (jsGet attr "NAME"))

/-- Resolution of an attribute entry's value, `attr.value || attr.Value ||
attr.VALUE` (src line 53). -/
def resolveAttrValue (attr : JSValue) : JSValue :=
  jsOr (jsGet attr "value") (jsOr (jsGet attr "Value") (jsGet attr "VALUE"))

/-- One iteration of the attribute loop (src lines 51-57): a truthy resolved
name stores the resolved value under the name's string coercion, otherwise the
entry is skipped. -/
def attrStep (m : List (String × JSValue)) (attr : JSValue) : List (String × JSValue) :=
  let name := resolveAttrName attr
  if truthy name then objInsert m (jsToString name) (resolveAttrValue attr) else m

/-- The whole attribute loop.  Property access on a `null` entry raises a
`TypeError`, which the loop propagates (src `attrs.forEach`, lines 51-57). -/
def processAttrs : List (String × JSValue) → List JSValue → Except String (List (String × JSValue))
  | m, [] => .ok m
  | m, a :: rest =>
    if isNull a then .error "TypeError" else processAttrs (attrStep m a) rest

/-- The attribute entries selected by the guard
`accessPoint.accessPointAttributes && accessPoint.accessPointAttributes.attributes`
together with the single-vs-array coercion (src lines 43-49). -/
def attrEntries (accessPoint : JSValue) : List JSValue :=
  if truthy (jsGet accessPoint "accessPointAttributes")
      && truthy (jsGet (jsGet accessPoint "accessPointAttributes") "attributes") then
    jsToArray (jsGet (jsGet accessPoint "accessPointAttributes") "attributes")
  else []

/-- The normalized status record built by `extractFirmwareStatus`
(src lines 32-40). -/
structure FirmwareStatus where
  accessPointId : JSValue
  serialNumber : JSValue
  online : JSValue
  syncStatus : JSValue
  firmwareUpgradeStatus : JSValue
  timeOfLastFirmwareUpgrade : JSValue
  attributes : List (String × JSValue)

/-- Embedding of `extractFirmwareStatus` (src lines 29-61): `.ok none` models
the early `return null` for a falsy input; every scalar field falls back to
the `"N/A"` placeholder via `||`; the attribute loop may raise. -/
def extractFirmwareStatus (accessPoint : JSValue) : Except String (Option FirmwareStatus) :=
  if !truthy accessPoint then .ok none
  else do
    let attrs ← processAttrs [] (attrEntries accessPoint)
    .ok (some {
      accessPointId := jsOr (jsGet accessPoint "id") (.str "N/A")
      serialNumber := jsOr (jsGet accessPoint "serialNumber") (.str "N/A")
      online := jsOr (jsGet accessPoint "online") (.str "N/A")
      syncStatus := jsOr (jsGet accessPoint "syncStatus") (.str "N/A")
      firmwareUpgradeStatus := jsOr (jsGet accessPoint "firmwareUpgradeStatus") (.str "N/A")
      timeOfLastFirmwareUpgrade := jsOr (jsGet accessPoint "timeOfLastFirmwareUpgrade") (.str "N/A")
      attributes := attrs })

/-- The normalized event fields rendered by the `newEvent` branch of
`logCallback` (src lines 109-125), with their `"N/A"` fallbacks. -/
structure EventLog where
  origin : JSValue
  family : JSValue
  code : JSValue
  timeStamp : JSValue
  logData : List (JSValue × JSValue)

/-- What a `logCallback` invocation renders (the observability output). -/
inductive LogOutput where
  | statusLog : FirmwareStatus → LogOutput
  | eventLog : EventLog → LogOutput
  | skipped : LogOutput

/-- Embedding of `logCallback` (src lines 64-129).  In the `notifyUpdated`
branch, reading `status.accessPointId` raises a `TypeError` when
`extractFirmwareStatus` returned `null` (src line 74).  In the `newEvent`
branch, reading `data.origin` raises when `data` is `null`/`undefined`
(src line 111); each `logData` item is rendered with `"N/A"` fallbacks after
the single-vs-array coercion (src lines 116-125). -/
def logCallback (ty : String) (data : JSValue) : Except String LogOutput :=
  if ty = "notifyUpdated" then do
    match ← extractFirmwareStatus data with
    | none => .error "TypeError: Cannot read properties of null"
    | some s => .ok (.statusLog s)
  else if ty = "newEvent" then
    if isNull data then .error "TypeError: Cannot read properties of undefined"
    else do
      let logData ←
        if truthy (jsGet data "logData") then
          (jsToArray (jsGet data "logData")).mapM (fun item =>
            if isNull item then Except.error "TypeError"
            else Except.ok (jsOr (jsGet item "key") (.str "N/A"),
                            jsOr (jsGet item "value") (.str "N/A")))
        else .ok []
      .ok (.eventLog {
        origin := jsOr (jsGet (jsGet data "origin") "logOriginType") (.str "N/A")
        family := jsOr (jsGet data "family") (.str "N/A")
        code := jsOr (jsGet data "code") (.str "N/A")
        timeStamp := jsOr (jsGet data "timeStamp") (.str "N/A")
        logData := logData })
  else .ok .skipped

/-- The three-way classification of §3 of the design document. -/
inductive OperationKind where
  | StatusUpdate : OperationKind
  | EventNotification : OperationKind
  | Unrecognized : OperationKind
deriving DecidableEq, Repr

/-- The StatusUpdate acknowledgement template literal of src lines 160-165,
with the newlines and indentation of the backtick string. -/
def notifyUpdatedResponseEnvelope : String :=
  "<?xml version=\"1.0\" encoding=\"UTF-8\"?>\n<soap:Envelope xmlns:soap=\"http://www.w3.org/2003/05/soap-envelope\">\n  <soap:Body>\n    <ns:notifyUpdatedResponse xmlns:ns=\"http://xml.assaabloy.com/dsr/2.0\"/>\n  </soap:Body>\n</soap:Envelope>"

/-- The EventNotification acknowledgement template literal of src
lines 172-177. -/
def newEventResponseEnvelope : String :=
  "<?xml version=\"1.0\" encoding=\"UTF-8\"?>\n<soap:Envelope xmlns:soap=\"http://www.w3.org/2003/05/soap-envelope\">\n  <soap:Body>\n    <ns:newEventResponse xmlns:ns=\"http://xml.assaabloy.com/dsr/2.0\"/>\n  </soap:Body>\n</soap:Envelope>"

/-- The Unrecognized acknowledgement template literal of src lines 184-187. -/
def unknownResponseEnvelope : String :=
  "<?xml version=\"1.0\" encoding=\"UTF-8\"?>\n<soap:Envelope xmlns:soap=\"http://www.w3.org/2003/05/soap-envelope\">\n  <soap:Body/>\n</soap:Envelope>"

/-- Modelled from the spec: the single-line StatusUpdate template that §6 of
the design document presents, used to compare the spec's wording with the
template the code actually sends. -/
def specStatusUpdateTemplate : String :=
  "<?xml version=\"1.0\" encoding=\"UTF-8\"?><soap:Envelope xmlns:soap=\"http://www.w3.org/2003/05/soap-envelope\"><soap:Body><ns:notifyUpdatedResponse xmlns:ns=\"http://xml.assaabloy.com/dsr/2.0\"/></soap:Body></soap:Envelope>"

/-- Modelled from the spec: the single-line Unrecognized template of §6. -/
def specUnrecognizedTemplate : String :=
  "<?xml version=\"1.0\" encoding=\"UTF-8\"?><soap:Envelope xmlns:soap=\"http://www.w3.org/2003/05/soap-envelope\"><soap:Body/></soap:Envelope>"

/-- The value of the `Content-Type` header set on success (src line 191). -/
def soapContentType : String := "application/soap+xml; charset=utf-8"

/-- The observable outcome of one POST request: HTTP status, body, the
explicitly set content type (none on the error paths), and which operation the
dispatcher classified the request as (none when dispatch never ran). -/
structure Response where
  status : Nat
  body : String
  contentType : Option String
  dispatched : Option OperationKind
deriving DecidableEq, Repr

/-- Embedding of the `app.post` handler (src lines 132-198) from the point
where the parse result is known.  A `none` parse result short-circuits to the
400 response before any dispatch; a `TypeError` escaping `logCallback` is
caught by the outer `try/catch` and answered with the 500 response. -/
def handlePost (parseResult : Option JSValue) : Response :=
  match parseResult with
  | none => { status := 400, body := "Invalid SOAP", contentType := none, dispatched := none }
  | some parsed =>
    let envelope := jsGet parsed "Envelope"
    let body := jsGet envelope "Body"
    if truthy (jsGet body "notifyUpdated") then
      let accessPoint := jsGet (jsGet body "notifyUpdated") "accessPoint"
      match logCallback "notifyUpdated" accessPoint with
      | .error _ =>
        { status := 500, body := "Internal Server Error", contentType := none,
          dispatched := some .StatusUpdate }
      | .ok _ =>
        { status := 200, body := notifyUpdatedResponseEnvelope,
          contentType := some soapContentType, dispatched := some .StatusUpdate }
    else if truthy (jsGet body "newEvent") then
      let logEntry := jsGet (jsGet body "newEvent") "logEntry"
      match logCallback "newEvent" logEntry with
      | .error _ =>
        { status := 500, body := "Internal Server Error", contentType := none,
          dispatched := some .EventNotification }
      | .ok _ =>
        { status := 200, body := newEventResponseEnvelope,
          contentType := some soapContentType, dispatched := some .EventNotification }
    else
      { status := 200, body := unknownResponseEnvelope,
        contentType := some soapContentType, dispatched := some .Unrecognized }

/-- An XML element as handed to the xml2js assembly stage: a (possibly
prefixed) tag name, the attribute list, the text content, and the child
elements. -/
inductive Xml where
  | elem : String → List (String × String) → String → List Xml → Xml

/-- The tag name of an element. -/
def Xml.tagName : Xml → String
  | .elem n _ _ _ => n

/-- Modelled from xml2js: the `xml2js.processors.stripPrefix` name processor
that src line 19 installs for tag names.  It removes everything up to the last
colon unless the name starts with `xmlns` (regex `(?!xmlns)^.*:`). -/
def stripPfx (s : String) : String :=
  if "xmlns".toList.isPrefixOf s.toList then s
  else if s.toList.contains ':' then
    String.mk ((s.toList.reverse.takeWhile (fun c => c ≠ ':')).reverse)
  else s

/-- Modelled from xml2js with `ignoreAttrs: false`: the initial field list of
an assembled element, holding the verbatim attribute map under `$` (no
`attrNameProcessors` is configured in src lines 16-20, so attribute names are
not processed) and the text content under `_`. -/
def initFields (attrs : List (String × String)) (text : String) : List (String × JSValue) :=
  (if attrs.isEmpty then []
   else [("$", JSValue.obj (attrs.map fun p => (p.1, JSValue.str p.2)))])
  ++ (if text = "" then [] else [("_", JSValue.str text)])

/-- Modelled from xml2js with `explicitArray: false`: merging one assembled
child under its key — a first occurrence is stored bare, a repeated key is
promoted to an array. -/
def addChild (fields : List (String × JSValue)) (k : String) (v : JSValue) :
    List (String × JSValue) :=
  match findKey fields k with
  | none => fields ++ [(k, v)]
  | some (.arr xs) => objInsert fields k (.arr (xs ++ [v]))
  | some w => objInsert fields k (.arr [w, v])

mutual
/-- Modelled from xml2js with the options of src lines 16-20: the JS value an
element assembles to.  A childless, attributeless element collapses to its
text; otherwise children are merged under their `stripPfx`-processed tag
names. -/
def xmlValue : Xml → JSValue
  | .elem _ attrs text children =>
    if attrs.isEmpty && children.isEmpty then .str text
    else .obj (xmlChildren (initFields attrs text) children)

/-- Folds the assembled children into a field list. -/
def xmlChildren (fs : List (String × JSValue)) : List Xml → List (String × JSValue)
  | [] => fs
  | c :: rest => xmlChildren (addChild fs (stripPfx c.tagName) (xmlValue c)) rest
end

/-- Embedding of `parseXML` (src lines 14-26): the library outcome is either a
raised parse error — caught and converted to `null` — or a document tree,
which xml2js wraps as an object keyed by the processed root tag name. -/
def parseXML (result : Except String Xml) : Option JSValue :=
  match result with
  | .error _ => none
  | .ok root => some (.obj [(stripPfx root.tagName, xmlValue root)])

/-- Modelled from the spec: §4.2 resolves an entry's name by "checking keys in
order `name`, `Name`, `NAME`, taking the first defined value", where a defined
value is one that is present (not `undefined`). -/
def specResolveAttrName (attr : JSValue) : JSValue :=
  if !isNull (jsGet attr "name") then jsGet attr "name"
  else if !isNull (jsGet attr "Name") then jsGet attr "Name"
  else jsGet attr "NAME"

/-- The map key an attribute entry contributes, if any: the string coercion of
its resolved name when that name is truthy. -/
def resolvedKey (a : JSValue) : Option String :=
  if truthy (resolveAttrName a) then some (jsToString (resolveAttrName a)) else none

/-- The value contributed for a key by the last entry of the list that
resolves to it — the "last occurrence per name" of §4.2. -/
def lastResolved : List JSValue → String → Option JSValue
  | [], _ => none
  | a :: rest, k =>
    match lastResolved rest k with
    | some v => some v
    | none => if resolvedKey a = some k then some (resolveAttrValue a) else none

/-- Whether a string starts with the XML declaration `<?xml`, the common
prefix of every SOAP envelope the server emits. -/
def startsWithXmlDecl (s : String) : Bool := "<?xml".toList.isPrefixOf s.toList

/-- A fully populated StatusUpdate envelope (accessPoint present), used to
exhibit the response the code actually sends. -/
def goodStatusParsed : JSValue :=
  .obj [("Envelope", .obj [("Body",
    .obj [("notifyUpdated", .obj [("accessPoint",
      .obj [("id", .str "AP-100")])])])])]

/-- A parsed envelope whose `notifyUpdated` is a non-empty object without an
`accessPoint` child. -/
def missingAccessPointParsed : JSValue :=
  .obj [("Envelope", .obj [("Body",
    .obj [("notifyUpdated", .obj [("dummy", .str "x")])])])]

/-- A parsed envelope whose `newEvent` is a non-empty object without a
`logEntry` child. -/
def missingLogEntryParsed : JSValue :=
  .obj [("Envelope", .obj [("Body",
    .obj [("newEvent", .obj [("dummy", .str "x")])])])]

/-- A parsed envelope whose `Body` has neither known child. -/
def nonMatchingParsed : JSValue :=
  .obj [("Envelope", .obj [("Body", .obj [("somethingElse", .str "x")])])]

/-- A parsed tree that is well-formed XML but not a SOAP envelope. -/
def nonSoapParsed : JSValue := .obj [("html", .str "x")]

/-- A parsed envelope whose `Body` carries both a (non-empty) `notifyUpdated`
without `accessPoint` and a well-formed `newEvent`. -/
def bothKindsParsed : JSValue :=
  .obj [("Envelope", .obj [("Body",
    .obj [("notifyUpdated", .obj [("x", .str "1")]),
          ("newEvent", .obj [("logEntry", .obj [("family", .str "F")])])])])]

/-- An attribute entry whose `name` key is defined but empty while `Name` is
non-empty — the input separating "first defined" from the code's `||`. -/
def emptyNameAttr : JSValue := .obj [("name", .str ""), ("Name", .str "B")]

/-- Two attribute entries resolving to the same name `x`, in different case
variants, with distinct values. -/
def duplicateNameEntries : List JSValue :=
  [JSValue.obj [("name", .str "x"), ("value", .str "1")],
   JSValue.obj [("NAME", .str "x"), ("VALUE", .str "2")]]

/-- An element with a prefixed tag name and a prefixed attribute name. -/
def prefixedAttrElem : Xml := .elem "soap:Envelope" [("ns:flag", "1")] "" []

/-- The accessPoint shape of the §8 example: arbitrary scalar field values and
a given attribute collection value. -/
def mkAccessPoint (idv snv onv ssv fus tlu attrsVal : JSValue) : JSValue :=
  .obj [("id", idv), ("serialNumber", snv), ("online", onv), ("syncStatus", ssv),
        ("firmwareUpgradeStatus", fus), ("timeOfLastFirmwareUpgrade", tlu),
        ("accessPointAttributes", .obj [("attributes", attrsVal)])]

/-- A logEntry shape with arbitrary scalar field values and a given `logData`
value. -/
def mkLogEntry (orv fav cov tsv logDataVal : JSValue) : JSValue :=
  .obj [("origin", orv), ("family", fav), ("code", cov), ("timeStamp", tsv),
        ("logData", logDataVal)]

theorem truthy_str_iff {s : String} : truthy (.str s) = true ↔ s ≠ "" := by
  simp [truthy]

theorem processAttrs_ok_of_all (entries : List JSValue) (m : List (String × JSValue))
    (h : entries.all (fun a => !isNull a) = true) :
    processAttrs m entries = .ok (entries.foldl attrStep m) := by
  induction entries generalizing m with
  | nil => rfl
  | cons a rest ih =>
    simp only [List.all_cons, Bool.and_eq_true, Bool.not_eq_true'] at h
    simp [processAttrs, h.1, List.foldl_cons, ih _ (by simpa using h.2)]

theorem extractFirmwareStatus_ok (ap : JSValue) (h1 : truthy ap = true)
    (h2 : (attrEntries ap).all (fun a => !isNull a) = true) :
    extractFirmwareStatus ap =
      .ok (some {
        accessPointId := jsOr (jsGet ap "id") (.str "N/A")
        serialNumber := jsOr (jsGet ap "serialNumber") (.str "N/A")
        online := jsOr (jsGet ap "online") (.str "N/A")
        syncStatus := jsOr (jsGet ap "syncStatus") (.str "N/A")
        firmwareUpgradeStatus := jsOr (jsGet ap "firmwareUpgradeStatus") (.str "N/A")
        timeOfLastFirmwareUpgrade := jsOr (jsGet ap "timeOfLastFirmwareUpgrade") (.str "N/A")
        attributes := (attrEntries ap).foldl attrStep [] }) := by
  simp only [extractFirmwareStatus, h1, Bool.not_true, Bool.false_eq_true, if_false,
    processAttrs_ok_of_all _ _ h2]
  rfl

theorem logCallback_notifyUpdated_ok (ap : JSValue) (h1 : truthy ap = true)
    (h2 : (attrEntries ap).all (fun a => !isNull a) = true) :
    logCallback "notifyUpdated" ap =
      .ok (.statusLog {
        accessPointId := jsOr (jsGet ap "id") (.str "N/A")
        serialNumber := jsOr (jsGet ap "serialNumber") (.str "N/A")
        online := jsOr (jsGet ap "online") (.str "N/A")
        syncStatus := jsOr (jsGet ap "syncStatus") (.str "N/A")
        firmwareUpgradeStatus := jsOr (jsGet ap "firmwareUpgradeStatus") (.str "N/A")
        timeOfLastFirmwareUpgrade := jsOr (jsGet ap "timeOfLastFirmwareUpgrade") (.str "N/A")
        attributes := (attrEntries ap).foldl attrStep [] }) := by
  simp only [logCallback, if_pos rfl, extractFirmwareStatus_ok ap h1 h2]
  rfl

theorem findKey_objInsert_self (m : List (String × JSValue)) (k : String) (v : JSValue) :
    findKey (objInsert m k v) k = some v := by
  induction m with
  | nil => simp [objInsert, findKey]
  | cons p rest ih =>
    obtain ⟨k', v'⟩ := p
    by_cases h : k' = k <;> simp [objInsert, findKey, h, ih]

theorem findKey_objInsert_ne (m : List (String × JSValue)) (k k2 : String) (v : JSValue)
    (h : k ≠ k2) : findKey (objInsert m k v) k2 = findKey m k2 := by
  induction m with
  | nil => simp [objInsert, findKey, h]
  | cons p rest ih =>
    obtain ⟨k', v'⟩ := p
    by_cases hk : k' = k
    · subst hk
      simp [objInsert, findKey, h]
    · by_cases hk2 : k' = k2 <;> simp [objInsert, findKey, hk, hk2, ih, Ne.symm h]

theorem foldl_attrStep_findKey (entries : List JSValue) (m : List (String × JSValue))
    (k : String) :
    findKey (entries.foldl attrStep m) k = orO (lastResolved entries k) (findKey m k) := by
  induction entries generalizing m with
  | nil => simp [lastResolved, orO]
  | cons a rest ih =>
    rw [List.foldl_cons, ih]
    show _ = orO (lastResolved (a :: rest) k) _
    rw [show lastResolved (a :: rest) k =
          match lastResolved rest k with
          | some v => some v
          | none => if resolvedKey a = some k then some (resolveAttrValue a) else none
        from rfl]
    cases hres : lastResolved rest k with
    | some v => simp [orO]
    | none =>
      simp only [orO]
      unfold resolvedKey attrStep
      by_cases ht : truthy (resolveAttrName a) = true
      · simp only [ht, if_true]
        by_cases hk : jsToString (resolveAttrName a) = k
        · simp [hk, findKey_objInsert_self]
        · simp [hk, findKey_objInsert_ne _ _ _ _ hk]
      · simp only [Bool.not_eq_true] at ht
        simp [ht]

theorem mem_keysOf_objInsert (m : List (String × JSValue)) (k : String) (v : JSValue)
    (x : String) : x ∈ keysOf (objInsert m k v) ↔ x ∈ keysOf m ∨ x = k := by
  induction m with
  | nil => simp [objInsert, keysOf]
  | cons p rest ih =>
    obtain ⟨k', v'⟩ := p
    by_cases h : k' = k
    · subst h
      simp only [objInsert, eq_self_iff_true, if_true, keysOf, List.map_cons, List.mem_cons]
      tauto
    · simp only [objInsert, if_neg h, keysOf, List.map_cons, List.mem_cons]
      rw [show (objInsert rest k v).map Prod.fst = keysOf (objInsert rest k v) from rfl, ih]
      tauto

theorem nodup_keysOf_objInsert (m : List (String × JSValue)) (k : String) (v : JSValue)
    (h : (keysOf m).Nodup) : (keysOf (objInsert m k v)).Nodup := by
  induction m with
  | nil => simp [objInsert, keysOf]
  | cons p rest ih =>
    obtain ⟨k', v'⟩ := p
    simp only [keysOf, List.map_cons, List.nodup_cons] at h
    by_cases hk : k' = k
    · subst hk
      simpa [objInsert, keysOf, List.nodup_cons] using h
    · simp only [objInsert, if_neg hk, keysOf, List.map_cons, List.nodup_cons]
      refine ⟨?_, ih h.2⟩
      rw [show (objInsert rest k v).map Prod.fst = keysOf (objInsert rest k v) from rfl,
          mem_keysOf_objInsert]
      rintro (hx | hx)
      · exact h.1 hx
      · exact hk hx

theorem nodup_keysOf_foldl_attrStep (entries : List JSValue) (m : List (String × JSValue))
    (h : (keysOf m).Nodup) : (keysOf (entries.foldl attrStep m)).Nodup := by
  induction entries generalizing m with
  | nil => simpa using h
  | cons a rest ih =>
    rw [List.foldl_cons]
    refine ih _ ?_
    unfold attrStep
    by_cases ht : truthy (resolveAttrName a) = true
    · simp only [ht, if_true]
      exact nodup_keysOf_objInsert _ _ _ h
    · simp only [Bool.not_eq_true] at ht
      simpa [ht] using h

/-- C1: claim as stated is false — the code's StatusUpdate acknowledgement is
the multi-line template literal, not byte-identical to the single-line
rendering in §6.  At a fully well-formed StatusUpdate envelope the response
body differs from the spec's single-line template. -/
theorem c1_statusUpdate_ack_counterexample :
    handlePost (some goodStatusParsed) =
      { status := 200, body := notifyUpdatedResponseEnvelope,
        contentType := some soapContentType,
        dispatched := some OperationKind.StatusUpdate }
    ∧ (handlePost (some goodStatusParsed)).body ≠ specStatusUpdateTemplate :=
  ⟨rfl, by decide⟩

/-- C1 (amended): for every parsed envelope whose `Body.notifyUpdated` is
truthy, whose `accessPoint` node is truthy, and whose attribute entries are
non-null, the response is HTTP 200 with the code's multi-line StatusUpdate
acknowledgement, regardless of any other payload content. -/
theorem c1_statusUpdate_ack_amended (parsed : JSValue)
    (h1 : truthy (jsGet (jsGet (jsGet parsed "Envelope") "Body") "notifyUpdated") = true)
    (h2 : truthy (jsGet (jsGet (jsGet (jsGet parsed "Envelope") "Body") "notifyUpdated")
        "accessPoint") = true)
    (h3 : ((attrEntries (jsGet (jsGet (jsGet (jsGet parsed "Envelope") "Body")
        "notifyUpdated") "accessPoint")).all (fun a => !isNull a)) = true) :
    handlePost (some parsed) =
      { status := 200, body := notifyUpdatedResponseEnvelope,
        contentType := some soapContentType,
        dispatched := some OperationKind.StatusUpdate } := by
  simp [handlePost, h1, logCallback_notifyUpdated_ok _ h2 h3]

/-- C1 witness: the amended theorem applied to a concrete well-formed
StatusUpdate envelope. -/
theorem c1_statusUpdate_ack_amended_witness :
    truthy (jsGet (jsGet (jsGet goodStatusParsed "Envelope") "Body") "notifyUpdated") = true
    ∧ handlePost (some goodStatusParsed) =
      { status := 200, body := notifyUpdatedResponseEnvelope,
        contentType := some soapContentType,
        dispatched := some OperationKind.StatusUpdate } :=
  ⟨rfl, c1_statusUpdate_ack_amended goodStatusParsed rfl rfl rfl⟩

/-- C2: the claim is the spec's intent but the code faults: with
`notifyUpdated` present but `accessPoint` absent, `logCallback` dereferences
the `null` status record and the outer catch answers 500, not an
acknowledgement; likewise for `newEvent` without `logEntry`. -/
theorem c2_missing_node_faults :
    handlePost (some missingAccessPointParsed) =
      { status := 500, body := "Internal Server Error", contentType := none,
        dispatched := some OperationKind.StatusUpdate }
    ∧ handlePost (some missingLogEntryParsed) =
      { status := 500, body := "Internal Server Error", contentType := none,
        dispatched := some OperationKind.EventNotification } :=
  ⟨rfl, rfl⟩

/-- C3: a raised parse exception becomes a `null` parse result, and the
handler answers HTTP 400 with the plain-text body `Invalid SOAP`, which is not
a SOAP envelope (it is none of the three acknowledgement templates and does
not start with an XML declaration), without dispatch or response synthesis. -/
theorem c3_parse_failure_short_circuit (e : String) :
    parseXML (Except.error e) = none
    ∧ handlePost (parseXML (Except.error e)) =
      { status := 400, body := "Invalid SOAP", contentType := none, dispatched := none }
    ∧ (handlePost (parseXML (Except.error e))).dispatched = none
    ∧ startsWithXmlDecl (handlePost (parseXML (Except.error e))).body = false
    ∧ (handlePost (parseXML (Except.error e))).body ≠ notifyUpdatedResponseEnvelope
    ∧ (handlePost (parseXML (Except.error e))).body ≠ newEventResponseEnvelope
    ∧ (handlePost (parseXML (Except.error e))).body ≠ unknownResponseEnvelope :=
  ⟨rfl, rfl, rfl,
   by show startsWithXmlDecl "Invalid SOAP" = false; decide,
   by show ("Invalid SOAP") ≠ notifyUpdatedResponseEnvelope; decide,
   by show ("Invalid SOAP") ≠ newEventResponseEnvelope; decide,
   by show ("Invalid SOAP") ≠ unknownResponseEnvelope; decide⟩

/-- C4: claim as stated is false only in the byte-identity to §6 — the code
sends its multi-line Unrecognized template, which differs from the spec's
single-line rendering, though the status is indeed 200. -/
theorem c4_unrecognized_ack_counterexample :
    handlePost (some nonMatchingParsed) =
      { status := 200, body := unknownResponseEnvelope,
        contentType := some soapContentType,
        dispatched := some OperationKind.Unrecognized }
    ∧ (handlePost (some nonMatchingParsed)).body ≠ specUnrecognizedTemplate :=
  ⟨rfl, by decide⟩

/-- C4 (amended): for every parsed envelope whose `Body` has neither a truthy
`notifyUpdated` nor a truthy `newEvent` child, the response is HTTP 200 with
the code's multi-line empty-body acknowledgement. -/
theorem c4_unrecognized_ack_amended (parsed : JSValue)
    (h1 : truthy (jsGet (jsGet (jsGet parsed "Envelope") "Body") "notifyUpdated") = false)
    (h2 : truthy (jsGet (jsGet (jsGet parsed "Envelope") "Body") "newEvent") = false) :
    handlePost (some parsed) =
      { status := 200, body := unknownResponseEnvelope,
        contentType := some soapContentType,
        dispatched := some OperationKind.Unrecognized } := by
  simp [handlePost, h1, h2]

/-- C4 witness: the amended theorem applied to a concrete envelope whose body
matches neither known child. -/
theorem c4_unrecognized_ack_amended_witness :
    truthy (jsGet (jsGet (jsGet nonMatchingParsed "Envelope") "Body") "notifyUpdated") = false
    ∧ handlePost (some nonMatchingParsed) =
      { status := 200, body := unknownResponseEnvelope,
        contentType := some soapContentType,
        dispatched := some OperationKind.Unrecognized } :=
  ⟨rfl, c4_unrecognized_ack_amended nonMatchingParsed rfl rfl⟩

/-- C5: claim as stated is false — resolution takes the first *truthy*
candidate (JavaScript `||`), not the first *defined* one: an entry whose
`name` key is defined but empty resolves to the later `Name` key, where the
spec's rule would resolve to the empty string. -/
theorem c5_name_resolution_counterexample :
    resolveAttrName emptyNameAttr = JSValue.str "B"
    ∧ specResolveAttrName emptyNameAttr = JSValue.str ""
    ∧ resolveAttrName emptyNameAttr ≠ specResolveAttrName emptyNameAttr := by
  refine ⟨rfl, rfl, fun h => ?_⟩
  have h' : JSValue.str "B" = JSValue.str "" := h
  injection h' with h2
  exact absurd h2 (by decide)

/-- C5 (amended): resolution checks `name`, `Name`, `NAME` in that fixed order
and takes the first truthy (non-empty) value, and likewise for the value keys;
consequently entries keyed `name`/`value`, `Name`/`Value`, or `NAME`/`VALUE`
with non-empty values normalize to the identical single-entry map. -/
theorem c5_name_resolution_amended (n v n2 v2 : String) (hn : n ≠ "") (hv : v ≠ "") :
    processAttrs [] [JSValue.obj [("name", .str n), ("value", .str v)]]
        = .ok [(n, .str v)]
    ∧ processAttrs [] [JSValue.obj [("Name", .str n), ("Value", .str v)]]
        = .ok [(n, .str v)]
    ∧ processAttrs [] [JSValue.obj [("NAME", .str n), ("VALUE", .str v)]]
        = .ok [(n, .str v)]
    ∧ resolveAttrName (JSValue.obj [("name", .str n), ("Name", .str n2), ("NAME", .str n2)])
        = .str n
    ∧ resolveAttrValue (JSValue.obj [("value", .str v), ("Value", .str v2), ("VALUE", .str v2)])
        = .str v := by
  have hnb : (n == "") = false := beq_eq_false_iff_ne.mpr hn
  have hvb : (v == "") = false := beq_eq_false_iff_ne.mpr hv
  refine ⟨?_, ?_, ?_, ?_, ?_⟩ <;>
    simp [processAttrs, attrStep, resolveAttrName, resolveAttrValue, jsGet, lookupField,
      jsOr, isNull, truthy, hn, hv, hnb, hvb, jsToString, objInsert]

/-- C5 witness: the amended theorem applied to the concrete non-empty pair
`x`/`1`. -/
theorem c5_name_resolution_amended_witness :
    ("x" : String) ≠ ""
    ∧ (processAttrs [] [JSValue.obj [("name", .str "x"), ("value", .str "1")]]
        = .ok [("x", .str "1")]
      ∧ processAttrs [] [JSValue.obj [("Name", .str "x"), ("Value", .str "1")]]
        = .ok [("x", .str "1")]
      ∧ processAttrs [] [JSValue.obj [("NAME", .str "x"), ("VALUE", .str "1")]]
        = .ok [("x", .str "1")]
      ∧ resolveAttrName (JSValue.obj [("name", .str "x"), ("Name", .str "y"), ("NAME", .str "y")])
        = .str "x"
      ∧ resolveAttrValue (JSValue.obj [("value", .str "1"), ("Value", .str "2"), ("VALUE", .str "2")])
        = .str "1") :=
  ⟨by decide, c5_name_resolution_amended "x" "1" "y" "2" (by decide) (by decide)⟩

/-- C6: supplying the attribute collection (resp. the `logData` collection) as
one bare object is extracted exactly as supplying it as a one-element array,
for every content of the entry and of the surrounding payload fields. -/
theorem c6_single_entry_invariance (idv snv onv ssv fus tlu orv fav cov tsv : JSValue)
    (fs gs : List (String × JSValue)) :
    extractFirmwareStatus (mkAccessPoint idv snv onv ssv fus tlu (.obj fs))
      = extractFirmwareStatus (mkAccessPoint idv snv onv ssv fus tlu (.arr [.obj fs]))
    ∧ logCallback "newEvent" (mkLogEntry orv fav cov tsv (.obj gs))
      = logCallback "newEvent" (mkLogEntry orv fav cov tsv (.arr [.obj gs])) :=
  ⟨rfl, rfl⟩

/-- C7: claim as stated is false — only tag names go through the prefix
stripper (src line 19 sets `tagNameProcessors` only), so the prefixed
attribute `ns:flag` of the parsed element is not addressable by its local name
`flag`, only by its full prefixed name. -/
theorem c7_attr_names_counterexample :
    parseXML (.ok prefixedAttrElem)
      = some (.obj [("Envelope", .obj [("$", .obj [("ns:flag", .str "1")])])])
    ∧ jsGet (jsGet (JSValue.obj [("$", JSValue.obj [("ns:flag", JSValue.str "1")])]) "$")
        "flag" = .null
    ∧ jsGet (jsGet (JSValue.obj [("$", JSValue.obj [("ns:flag", JSValue.str "1")])]) "$")
        "ns:flag" = .str "1" := by
  refine ⟨?_, rfl, rfl⟩
  simp [parseXML, prefixedAttrElem, xmlValue, xmlChildren, initFields, stripPfx, Xml.tagName]

/-- C7 (amended): the parser strips namespace prefixes from every element
name — `soap:Envelope` and `ns:notifyUpdated` are addressed by their local
names — but attribute names are kept verbatim under `$`, prefixes included. -/
theorem c7_name_processing_amended (name text : String) (attrs : List (String × String))
    (children : List Xml) (h : attrs ≠ []) :
    parseXML (.ok (.elem name attrs text children))
      = some (.obj [(stripPfx name, xmlValue (.elem name attrs text children))])
    ∧ jsGet (xmlValue (.elem name attrs text [])) "$"
      = .obj (attrs.map fun p => (p.1, JSValue.str p.2))
    ∧ stripPfx "soap:Envelope" = "Envelope"
    ∧ stripPfx "ns:notifyUpdated" = "notifyUpdated" := by
  refine ⟨rfl, ?_, rfl, rfl⟩
  cases attrs with
  | nil => exact absurd rfl h
  | cons a as =>
    by_cases ht : text = "" <;>
      simp [xmlValue, xmlChildren, initFields, jsGet, lookupField, ht]

/-- C7 witness: the amended theorem applied to the concrete prefixed
element. -/
theorem c7_name_processing_amended_witness :
    ([("ns:flag", "1")] : List (String × String)) ≠ []
    ∧ (parseXML (.ok (.elem "soap:Envelope" [("ns:flag", "1")] "" []))
        = some (.obj [(stripPfx "soap:Envelope",
            xmlValue (.elem "soap:Envelope" [("ns:flag", "1")] "" []))])
      ∧ jsGet (xmlValue (.elem "soap:Envelope" [("ns:flag", "1")] "" [])) "$"
        = .obj [("ns:flag", JSValue.str "1")]
      ∧ stripPfx "soap:Envelope" = "Envelope"
      ∧ stripPfx "ns:notifyUpdated" = "notifyUpdated") :=
  ⟨by simp, c7_name_processing_amended "soap:Envelope" "" [("ns:flag", "1")] [] (by simp)⟩

/-- C8: for entries that raise no `TypeError`, the attribute loop yields a map
whose keys are unique and in which each name is bound to the value of the last
entry resolving to that name — later entries overwrite earlier ones. -/
theorem c8_last_occurrence_wins (entries : List JSValue) (k : String)
    (h : entries.all (fun a => !isNull a) = true) :
    ∃ m, processAttrs [] entries = .ok m
      ∧ findKey m k = lastResolved entries k
      ∧ (keysOf m).Nodup := by
  refine ⟨entries.foldl attrStep [], processAttrs_ok_of_all entries [] h, ?_,
    nodup_keysOf_foldl_attrStep entries [] (by simp [keysOf])⟩
  rw [foldl_attrStep_findKey]
  cases lastResolved entries k <;> simp [orO, findKey]

/-- C8 witness: the theorem applied to two concrete case-variant entries that
both resolve to the name `x`. -/
theorem c8_last_occurrence_wins_witness :
    (duplicateNameEntries.all (fun a => !isNull a) = true)
    ∧ ∃ m, processAttrs [] duplicateNameEntries = .ok m
        ∧ findKey m "x" = lastResolved duplicateNameEntries "x"
        ∧ (keysOf m).Nodup :=
  ⟨rfl, c8_last_occurrence_wins duplicateNameEntries "x" rfl⟩

/-- C9: claim as stated is false — the notifyUpdated branch is taken first,
but when its payload lacks an `accessPoint` the handler faults to 500 instead
of returning the StatusUpdate acknowledgement, even with a well-formed
`newEvent` sibling present. -/
theorem c9_both_children_counterexample :
    handlePost (some bothKindsParsed) =
      { status := 500, body := "Internal Server Error", contentType := none,
        dispatched := some OperationKind.StatusUpdate }
    ∧ (handlePost (some bothKindsParsed)).body ≠ notifyUpdatedResponseEnvelope :=
  ⟨rfl, by decide⟩

/-- C9 (amended): when `Body` carries both a truthy `notifyUpdated` and a
truthy `newEvent`, the request is classified StatusUpdate and — provided the
`accessPoint` is truthy with non-null attribute entries — answered with the
StatusUpdate acknowledgement; the `newEvent` payload never influences the
response. -/
theorem c9_dispatch_priority_amended (nu ne : JSValue)
    (h1 : truthy nu = true) (_hne : truthy ne = true)
    (h3 : truthy (jsGet nu "accessPoint") = true)
    (h4 : (attrEntries (jsGet nu "accessPoint")).all (fun a => !isNull a) = true) :
    handlePost (some (JSValue.obj [("Envelope", JSValue.obj [("Body",
        JSValue.obj [("notifyUpdated", nu), ("newEvent", ne)])])])) =
      { status := 200, body := notifyUpdatedResponseEnvelope,
        contentType := some soapContentType,
        dispatched := some OperationKind.StatusUpdate } := by
  have hlog := logCallback_notifyUpdated_ok (jsGet nu "accessPoint") h3 h4
  have e1 : jsGet (JSValue.obj [("Envelope", JSValue.obj [("Body",
      JSValue.obj [("notifyUpdated", nu), ("newEvent", ne)])])]) "Envelope"
      = JSValue.obj [("Body", JSValue.obj [("notifyUpdated", nu), ("newEvent", ne)])] := rfl
  have e2 : jsGet (JSValue.obj [("Body", JSValue.obj [("notifyUpdated", nu),
      ("newEvent", ne)])]) "Body"
      = JSValue.obj [("notifyUpdated", nu), ("newEvent", ne)] := rfl
  have e3 : jsGet (JSValue.obj [("notifyUpdated", nu), ("newEvent", ne)]) "notifyUpdated"
      = nu := rfl
  simp only [handlePost, e1, e2, e3, h1, eq_self_iff_true, if_true, hlog]

/-- C9 witness: the amended theorem applied to a concrete envelope carrying
both children. -/
theorem c9_dispatch_priority_amended_witness :
    truthy (JSValue.obj [("accessPoint", JSValue.obj [("id", JSValue.str "AP-1")])]) = true
    ∧ handlePost (some (JSValue.obj [("Envelope", JSValue.obj [("Body",
        JSValue.obj [("notifyUpdated",
            JSValue.obj [("accessPoint", JSValue.obj [("id", JSValue.str "AP-1")])]),
          ("newEvent", JSValue.obj [("logEntry", JSValue.obj [("family", JSValue.str "F")])])])])])) =
      { status := 200, body := notifyUpdatedResponseEnvelope,
        contentType := some soapContentType,
        dispatched := some OperationKind.StatusUpdate } :=
  ⟨rfl, c9_dispatch_priority_amended
    (JSValue.obj [("accessPoint", JSValue.obj [("id", JSValue.str "AP-1")])])
    (JSValue.obj [("logEntry", JSValue.obj [("family", JSValue.str "F")])])
    rfl rfl rfl rfl⟩

/-- C10: well-formed XML that is no SOAP envelope — no `Envelope` element or
no `Body` under it, so that the optional chaining yields an absent body — is
classified Unrecognized and acknowledged with the empty-body template and
HTTP 200, not a 400 or 500. -/
theorem c10_non_envelope_unrecognized (parsed : JSValue)
    (h : jsGet (jsGet parsed "Envelope") "Body" = JSValue.null) :
    handlePost (some parsed) =
      { status := 200, body := unknownResponseEnvelope,
        contentType := some soapContentType,
        dispatched := some OperationKind.Unrecognized } := by
  simp only [handlePost, h]
  rfl

/-- C10 witness: the theorem applied to a concrete non-SOAP parsed tree. -/
theorem c10_non_envelope_unrecognized_witness :
    jsGet (jsGet nonSoapParsed "Envelope") "Body" = JSValue.null
    ∧ handlePost (some nonSoapParsed) =
      { status := 200, body := unknownResponseEnvelope,
        contentType := some soapContentType,
        dispatched := some OperationKind.Unrecognized } :=
  ⟨rfl, c10_non_envelope_unrecognized nonSoapParsed rfl⟩
